import Mathlib

set_option autoImplicit false

/-!
Verification of the generic data-access layer:
`backend/domain/shared/query_helpers.py` and
`backend/domain/shared/base_repository.py`, embedded shallowly.

SQLAlchemy column expressions are modelled as syntax trees with an
executable evaluation semantics (WHERE-clause truth: a NULL-valued
comparison counts as not matching).  Tables are lists of rows, a row
being an association list from field names to values.  The async
session is modelled by explicit state passing: every write operation
returns the outcome together with the table as committed afterwards;
a database-layer failure at a given point of an operation is an
explicit `Option DbErr` argument of the embedded operation, mirroring
the `try`/`except SQLAlchemyError` structure of the code.
-/

/-- Boolean column expressions over one text column, as built by
`SearchPatternBuilder.build_search_condition` in `query_helpers.py`:
`IS NULL`, `IS NOT NULL`, `ILIKE pattern`, `similarity(col, q) > t`,
and conjunction / disjunction (`&` and `or_`). -/
inductive Cond where
  | isNull : Cond
  | isNotNull : Cond
  | ilike : String → Cond
  | similarityGt : String → ℚ → Cond
  | condAnd : Cond → Cond → Cond
  | condOr : Cond → Cond → Cond
deriving DecidableEq, Repr

/-- Order keys built by `SearchPatternBuilder.build_order_by`: either the bare
column (ascending, alphabetical) or `func.similarity(column, query).desc()`. -/
inductive OrderKey where
  | colAsc : OrderKey
  | similarityDesc : String → OrderKey
deriving DecidableEq, Repr

/-- `SearchPatternBuilder.SHORT_QUERY_THRESHOLD` in `query_helpers.py`. -/
def SHORT_QUERY_THRESHOLD : Nat := 2

/-- `SearchPatternBuilder.SIMILARITY_THRESHOLD` in `query_helpers.py`
(the literal `0.1`). -/
def SIMILARITY_THRESHOLD : ℚ := 1 / 10

/-- Python `str.strip()`: drop leading and trailing whitespace. -/
def pyStrip (s : String) : String :=
  ⟨((s.data.dropWhile Char.isWhitespace).reverse.dropWhile Char.isWhitespace).reverse⟩

/-- `SearchPatternBuilder.build_search_condition`: trim the query; if empty
return the always-false condition `column.is_(None) & column.isnot(None)`;
if the trimmed length is at most the short-query threshold return
`column.ilike` of the query wrapped in percent signs; otherwise return that
ILIKE condition, or-ed with a trigram-similarity test when
`use_trigram_similarity` is set. -/
def build_search_condition (query : String) (use_trigram_similarity : Bool) : Cond :=
  let query := (pyStrip query)
  if query = "" then
    Cond.condAnd Cond.isNull Cond.isNotNull
  else if query.length ≤ SHORT_QUERY_THRESHOLD then
    Cond.ilike ("%" ++ query ++ "%")
  else if use_trigram_similarity then
    Cond.condOr (Cond.ilike ("%" ++ query ++ "%"))
      (Cond.similarityGt query SIMILARITY_THRESHOLD)
  else
    Cond.ilike ("%" ++ query ++ "%")

/-- `SearchPatternBuilder.build_order_by`: trim the query; short queries order
by the bare column (alphabetical), long queries by similarity descending. -/
def build_order_by (query : String) : OrderKey :=
  let query := (pyStrip query)
  if query.length ≤ SHORT_QUERY_THRESHOLD then
    OrderKey.colAsc
  else
    OrderKey.similarityDesc query

/-- `SearchPatternBuilder.is_short_query`. -/
def is_short_query (query : String) : Bool :=
  (pyStrip query).length ≤ SHORT_QUERY_THRESHOLD

/-- SQL `LIKE` pattern matching on explicit character lists: `%` matches any
sequence, `_` any single character, anything else itself. -/
def likeMatch : List Char → List Char → Bool
  | [], [] => true
  | [], _ :: _ => false
  | '%' :: ps, [] => likeMatch ps []
  | '%' :: ps, c :: s => likeMatch ps (c :: s) || likeMatch ('%' :: ps) s
  | '_' :: _, [] => false
  | '_' :: ps, _ :: s => likeMatch ps s
  | _ :: _, [] => false
  | c :: ps, c2 :: s => (c == c2) && likeMatch ps s
termination_by ps s => ps.length + s.length

/-- WHERE-clause truth of a condition at one column value (`none` is SQL NULL),
with the trigram similarity function passed in as a parameter `sim`.
`ILIKE` is case-insensitive `LIKE`; a comparison against NULL does not match. -/
def evalCond (sim : String → String → ℚ) (v : Option String) : Cond → Bool
  | Cond.isNull => v.isNone
  | Cond.isNotNull => !v.isNone
  | Cond.ilike p =>
    (match v with
     | none => false
     | some s => likeMatch p.toLower.toList s.toLower.toList)
  | Cond.similarityGt q t =>
    (match v with
     | none => false
     | some s => decide (t < sim s q))
  | Cond.condAnd a b => evalCond sim v a && evalCond sim v b
  | Cond.condOr a b => evalCond sim v a || evalCond sim v b

/-- Discriminator: is a condition a bare `ILIKE` (substring-containment)
condition and nothing else? -/
def Cond.isIlikeOnly : Cond → Bool
  | Cond.ilike _ => true
  | _ => false

/-- The closed locale enumeration `LocaleCode = Literal["ko", "en"]`. -/
inductive LocaleCode where
  | ko : LocaleCode
  | en : LocaleCode
deriving DecidableEq, Repr

/-- The string form of a locale code. -/
def LocaleCode.code : LocaleCode → String
  | LocaleCode.ko => "ko"
  | LocaleCode.en => "en"

/-- A SQLModel class as the data-access layer sees it: a class name and the
list of declared field names (`hasattr` probes membership in this list). -/
structure PyModel where
  name : String
  fields : List String
deriving DecidableEq, Repr

/-- `hasattr(model, f)` on a model class. -/
def hasField (m : PyModel) (f : String) : Bool :=
  m.fields.contains f

/-- Python `", ".join(fields)`. -/
def joinComma : List String → String
  | [] => ""
  | [f] => f
  | f :: rest => f ++ ", " ++ joinComma rest

/-- `LocaleFieldSelector.select_field`: compose the field name as prefix,
underscore, locale; if the model lacks it, raise `ValueError` with a message
enumerating the model's available fields; otherwise return the column
(identified here by its field name). -/
def select_field (model : PyModel) (fieldPre : String) (locale : LocaleCode) :
    Except String String :=
  let field_name := fieldPre ++ "_" ++ locale.code
  if hasField model field_name then
    Except.ok field_name
  else
    Except.error ("Model " ++ model.name ++ " does not have field '" ++ field_name ++
      "'. Available fields: " ++ joinComma model.fields)

/-- A column value: SQL NULL or a string / integer / boolean. -/
inductive Value where
  | vnone : Value
  | vstr : String → Value
  | vint : Int → Value
  | vbool : Bool → Value
deriving DecidableEq, Repr

/-- A row (an ORM entity instance): an association list from field names to
values; a well-formed row carries exactly its model's declared fields. -/
abbrev Row := List (String × Value)

/-- Read an attribute of a row (`getattr` on an entity instance). -/
def rowGet : Row → String → Option Value
  | [], _ => none
  | kv :: rest, k => if kv.1 == k then some kv.2 else rowGet rest k

/-- The value of a column in a row, with NULL for a missing entry. -/
def rowVal (r : Row) (k : String) : Value :=
  (rowGet r k).getD Value.vnone

/-- Overwrite an attribute of a row (`setattr` on an entity instance). -/
def rowSet : Row → String → Value → Row
  | [], _, _ => []
  | kv :: rest, k, v =>
    if kv.1 == k then (kv.1, v) :: rowSet rest k v else kv :: rowSet rest k v

/-- SQL equality of a stored column value against a literal, as SQLAlchemy
compiles `column == value`: comparing against `None` compiles to `IS NULL`;
a NULL stored value never equals a non-null literal (the comparison is
unknown, hence does not match in a WHERE clause). -/
def sqlEqB (stored : Value) (v : Value) : Bool :=
  match v with
  | Value.vnone => stored == Value.vnone
  | _ =>
    match stored with
    | Value.vnone => false
    | _ => stored == v

/-- SQL set membership `column.in_(vals)`: a NULL stored value matches
nothing; otherwise ordinary membership. -/
def sqlInB (stored : Value) (vals : List Value) : Bool :=
  stored != Value.vnone && vals.contains stored

/-- The database-layer errors relevant to the repository: all are
`SQLAlchemyError` subclasses in the source, so `except SQLAlchemyError`
catches every one of them. -/
inductive DbErr where
  | integrityError : DbErr
  | multipleResultsFound : DbErr
  | operationalError : DbErr
deriving DecidableEq, Repr

/-- A Python-level error that is not a `SQLAlchemyError`, hence never caught
by the repository's handlers. -/
inductive PyErr where
  | attributeError : PyErr
deriving DecidableEq, Repr

/-- The name of the primary-key field used by the repository. -/
def idField : String := "id"

/-- The name of the update-timestamp field probed by `hasattr`. -/
def updatedAtField : String := "updated_at"

/-- SQLAlchemy `Result.scalar_one_or_none()`: `none` for no row, the row if
unique, and `MultipleResultsFound` (an `InvalidRequestError`, hence a
`SQLAlchemyError`) when more than one row matched. -/
def scalar_one_or_none (rows : List Row) : Except DbErr (Option Row) :=
  match rows with
  | [] => Except.ok none
  | [r] => Except.ok (some r)
  | _ :: _ :: _ => Except.error DbErr.multipleResultsFound

/-- `BaseRepository.get_async`: select rows whose `id` equals the argument and
extract with `scalar_one_or_none`; any `SQLAlchemyError` (a failure of the
execution, modelled by `fail`, or a multiple-results error) is caught, logged
and turned into `None`. -/
def get_async (fail : Option DbErr) (table : List Row) (id : Value) : Option Row :=
  match fail with
  | some _ => none
  | none =>
    match scalar_one_or_none (table.filter (fun r => sqlEqB (rowVal r idField) id)) with
    | Except.ok e => e
    | Except.error _ => none

/-- Successively applied equality where-clauses, one per keyword argument
whose name the model declares (`hasattr` guard), as built by `count_async`,
`exists_async` and `find_by_async`. -/
def applyEqFilters (m : PyModel) (kwargs : List (String × Value)) (table : List Row) :
    List Row :=
  kwargs.foldl
    (fun acc kv =>
      if hasField m kv.1 then acc.filter (fun r => sqlEqB (rowVal r kv.1) kv.2) else acc)
    table

/-- `BaseRepository.find_by_async`: filter by the declared keyword arguments,
extract with `scalar_one_or_none`; any `SQLAlchemyError` becomes `None`. -/
def find_by_async (fail : Option DbErr) (m : PyModel) (table : List Row)
    (kwargs : List (String × Value)) : Option Row :=
  match fail with
  | some _ => none
  | none =>
    match scalar_one_or_none (applyEqFilters m kwargs table) with
    | Except.ok e => e
    | Except.error _ => none

/-- `BaseRepository.count_async`: count the rows matching the filters; a
`SQLAlchemyError` is caught and the count degrades to `0`. -/
def count_async (fail : Option DbErr) (m : PyModel) (table : List Row)
    (filters : List (String × Value)) : Nat :=
  match fail with
  | some _ => 0
  | none => (applyEqFilters m filters table).length

/-- `BaseRepository.exists_async`: filter, `limit(1)`, test for a row; a
`SQLAlchemyError` is caught and existence degrades to `false`. -/
def exists_async (fail : Option DbErr) (m : PyModel) (table : List Row)
    (kwargs : List (String × Value)) : Bool :=
  match fail with
  | some _ => false
  | none => !((applyEqFilters m kwargs table).take 1).isEmpty

/-- Ordering on column values used for ORDER BY: NULLs first, then booleans,
integers and strings in their natural orders (any fixed total preorder on the
stored values; the claims do not depend on its exact shape). -/
def valueLeB : Value → Value → Bool
  | Value.vnone, _ => true
  | _, Value.vnone => false
  | Value.vbool x, Value.vbool y => !x || y
  | Value.vbool _, _ => true
  | _, Value.vbool _ => false
  | Value.vint x, Value.vint y => x ≤ y
  | Value.vint _, _ => true
  | _, Value.vint _ => false
  | Value.vstr x, Value.vstr y => x ≤ y

/-- ORDER BY one column, ascending or descending (a deterministic, stable
merge sort models the database sort). -/
def sortByField (table : List Row) (f : String) (desc : Bool) : List Row :=
  table.mergeSort (fun r1 r2 =>
    if desc then valueLeB (rowVal r2 f) (rowVal r1 f)
    else valueLeB (rowVal r1 f) (rowVal r2 f))

/-- Python `s.startswith("-")`: the first character is a dash. -/
def startsWithDash (s : String) : Bool :=
  match s.data with
  | [] => false
  | c :: _ => c == '-'

/-- Python `s[1:]`: drop the first character. -/
def pyTail (s : String) : String :=
  ⟨s.data.drop 1⟩

/-- The ordering step of `list_async`: a falsy (empty or absent) `order_by` is
skipped; a leading `-` selects descending order on the rest of the name; a
field name the model does not declare is silently ignored (`hasattr` guard
on both branches). -/
def applyListOrder (m : PyModel) (table : List Row) (order_by : Option String) :
    List Row :=
  match order_by with
  | none => table
  | some ob =>
    if ob = "" then table
    else if startsWithDash ob then
      (if hasField m (pyTail ob) then sortByField table (pyTail ob) true else table)
    else
      (if hasField m ob then sortByField table ob false else table)

/-- The pagination offset: `if skip:` — only a nonzero skip adds an OFFSET. -/
def applySkip (skip : Nat) (l : List Row) : List Row :=
  if skip ≠ 0 then l.drop skip else l

/-- The pagination limit: `if limit:` — only a present, nonzero limit adds a
LIMIT. -/
def applyLimit (limit : Option Nat) (l : List Row) : List Row :=
  match limit with
  | none => l
  | some n => if n ≠ 0 then l.take n else l

/-- `BaseRepository.list_async`: order, then OFFSET `skip`, then LIMIT
`limit`; a `SQLAlchemyError` is caught and the result degrades to `[]`. -/
def list_async (fail : Option DbErr) (m : PyModel) (table : List Row)
    (skip : Nat) (limit : Option Nat) (order_by : Option String) : List Row :=
  match fail with
  | some _ => []
  | none => applyLimit limit (applySkip skip (applyListOrder m table order_by))

/-- A keyword-argument value of `filter_by_async`: a plain value (equality
filter) or a Python list (`isinstance(value, list)`, an IN filter). -/
inductive FilterVal where
  | fvEq : Value → FilterVal
  | fvIn : List Value → FilterVal
deriving DecidableEq, Repr

/-- The where-clauses of `filter_by_async`: equality or IN per declared
keyword argument; undeclared names are skipped (`hasattr` guard). -/
def applyFilterKwargs (m : PyModel) (kwargs : List (String × FilterVal))
    (table : List Row) : List Row :=
  kwargs.foldl
    (fun acc kv =>
      if hasField m kv.1 then
        match kv.2 with
        | FilterVal.fvEq v => acc.filter (fun r => sqlEqB (rowVal r kv.1) v)
        | FilterVal.fvIn vs => acc.filter (fun r => sqlInB (rowVal r kv.1) vs)
      else acc)
    table

/-- `BaseRepository.filter_by_async`: filter by the declared keyword
arguments; then, for a truthy `order_by`, `getattr(self.model, order_by)` is
called with no `hasattr` guard — on an undeclared name this raises
`AttributeError`, which `except SQLAlchemyError` does not catch; then OFFSET
and LIMIT.  A `SQLAlchemyError` of the execution degrades the result to `[]`. -/
def filter_by_async (fail : Option DbErr) (m : PyModel) (table : List Row)
    (skip : Nat) (limit : Option Nat) (order_by : Option String)
    (order_by_desc : Bool) (kwargs : List (String × FilterVal)) :
    Except PyErr (List Row) :=
  let filtered := applyFilterKwargs m kwargs table
  match order_by with
  | some ob =>
    if ob = "" then
      (match fail with
       | some _ => Except.ok []
       | none => Except.ok (applyLimit limit (applySkip skip filtered)))
    else if hasField m ob then
      (match fail with
       | some _ => Except.ok []
       | none => Except.ok (applyLimit limit (applySkip skip
           (sortByField filtered ob order_by_desc))))
    else
      Except.error PyErr.attributeError
  | none =>
    (match fail with
     | some _ => Except.ok []
     | none => Except.ok (applyLimit limit (applySkip skip filtered)))

/-- `self.model(**kwargs)`: build an entity carrying exactly the declared
fields, taking each supplied value and NULL (the model default) otherwise. -/
def buildRow (m : PyModel) (kwargs : List (String × Value)) : Row :=
  m.fields.map (fun f =>
    (f, ((kwargs.find? (fun kv => kv.1 == f)).map (fun kv => kv.2)).getD Value.vnone))

/-- `BaseRepository.create_async`: add the new entity and commit.  A failing
commit (modelled by `commitFail`) rolls the transaction back — the committed
table is unchanged — and re-raises; otherwise the entity is committed and
returned refreshed. -/
def create_async (commitFail : Option DbErr) (m : PyModel) (table : List Row)
    (kwargs : List (String × Value)) : Except DbErr Row × List Row :=
  let entity := buildRow m kwargs
  match commitFail with
  | some e => (Except.error e, table)
  | none => (Except.ok entity, table ++ [entity])

/-- The field-update loop of `update_async`: `setattr(entity, key, value)` for
each keyword argument passing the `hasattr` guard, in order. -/
def applyKwargs (m : PyModel) (r : Row) (kwargs : List (String × Value)) : Row :=
  kwargs.foldl (fun acc kv => if hasField m kv.1 then rowSet acc kv.1 kv.2 else acc) r

/-- The timestamp stamping of `update_async`: overwrite `updated_at` with the
current time when the entity has that attribute. -/
def stampUpdatedAt (m : PyModel) (now : Value) (r : Row) : Row :=
  if hasField m updatedAtField then rowSet r updatedAtField now else r

/-- `BaseRepository.update_async`: fetch by id via `get_async` (whose own
failure surfaces as absence), return `None` when absent; otherwise apply the
declared keyword arguments, stamp `updated_at` when declared, and commit.  A
failing commit rolls back (committed table unchanged) and re-raises;
otherwise the refreshed entity replaces the old row. -/
def update_async (getFail commitFail : Option DbErr) (m : PyModel) (now : Value)
    (table : List Row) (id : Value) (kwargs : List (String × Value)) :
    Except DbErr (Option Row) × List Row :=
  match get_async getFail table id with
  | none => (Except.ok none, table)
  | some entity =>
    let entity2 := stampUpdatedAt m now (applyKwargs m entity kwargs)
    match commitFail with
    | some e => (Except.error e, table)
    | none =>
      (Except.ok (some entity2),
        table.map (fun r => if sqlEqB (rowVal r idField) id then entity2 else r))

/-- `BaseRepository.delete_async`: fetch by id via `get_async` (whose own
failure surfaces as absence), return `false` when absent; otherwise delete
the row and commit.  A failing commit rolls back and re-raises. -/
def delete_async (getFail commitFail : Option DbErr) (table : List Row)
    (id : Value) : Except DbErr Bool × List Row :=
  match get_async getFail table id with
  | none => (Except.ok false, table)
  | some _ =>
    match commitFail with
    | some e => (Except.error e, table)
    | none =>
      (Except.ok true, table.filter (fun r => !sqlEqB (rowVal r idField) id))

/-- `BaseRepository.bulk_create_async`: build every entity of the batch, add
them all, and commit once.  The commit enforces the table's integrity
constraint `constraintOk` (for example uniqueness) over the whole new table:
on violation, or on an external failure `commitFail`, the transaction rolls
back — the committed table is unchanged — and the error is re-raised;
otherwise the whole batch is committed and returned refreshed. -/
def bulk_create_async (constraintOk : List Row → Bool) (commitFail : Option DbErr)
    (m : PyModel) (table : List Row) (batch : List (List (String × Value))) :
    Except DbErr (List Row) × List Row :=
  let created := batch.map (buildRow m)
  match commitFail with
  | some e => (Except.error e, table)
  | none =>
    if constraintOk (table ++ created) then (Except.ok created, table ++ created)
    else (Except.error DbErr.integrityError, table)

/-- `BaseRepository.bulk_update_async`: an empty batch returns `0` at once;
otherwise a uniform `updated_at` timestamp is added to every update dict not
already carrying one (when the model declares the field), and the updates are
applied by primary key in a single transaction.  A failing commit rolls back
and re-raises. -/
def bulk_update_async (commitFail : Option DbErr) (m : PyModel) (now : Value)
    (table : List Row) (updates : List Row) : Except DbErr Nat × List Row :=
  if updates.isEmpty then (Except.ok 0, table)
  else
    let updates2 :=
      if hasField m updatedAtField then
        updates.map (fun u =>
          if (rowGet u updatedAtField).isSome then u else u ++ [(updatedAtField, now)])
      else updates
    match commitFail with
    | some e => (Except.error e, table)
    | none =>
      (Except.ok updates2.length,
        updates2.foldl
          (fun t u =>
            match rowGet u idField with
            | none => t
            | some idv =>
              t.map (fun r =>
                if sqlEqB (rowVal r idField) idv then
                  u.foldl (fun racc kv =>
                    if kv.1 == idField then racc else rowSet racc kv.1 kv.2) r
                else r))
          table)

/-- A row of a model with visibility, as `add_visibility_filters` needs it:
a primary key, the owning user's id, and the visibility flag. -/
structure VisRow where
  id : Int
  user_id : Int
  is_visible : Bool
deriving DecidableEq, Repr

/-- A row of the `User` table as the visibility filter reads it: the primary
key `id` and the `is_admin` flag. -/
structure UserRow where
  id : Int
  is_admin : Bool
deriving DecidableEq, Repr

/-- A select statement over the visible model, recording what
`QueryFilterBuilder.add_visibility_filters` appends to it: how many times the
`User` table was joined on `model.user_id == User.id`, how many copies of the
`User.is_admin.is_(False)` and `model.is_visible` where-clauses were added,
and any other entity-level where-clauses the caller had already put there. -/
structure VisSelect where
  joinUserCount : Nat
  whereAdminFalse : Nat
  whereVisible : Nat
  extraWhere : List (VisRow → Bool)

/-- The bare `select(Model)` statement. -/
def selectEntity : VisSelect :=
  { joinUserCount := 0, whereAdminFalse := 0, whereVisible := 0, extraWhere := [] }

/-- `QueryFilterBuilder.add_visibility_filters`: unconditionally join `User`
on `model.user_id == User.id` and add the two where-clauses
`User.is_admin.is_(False)` and `model.is_visible`. -/
def add_visibility_filters (s : VisSelect) : VisSelect :=
  { s with
    joinUserCount := s.joinUserCount + 1
    whereAdminFalse := s.whereAdminFalse + 1
    whereVisible := s.whereVisible + 1 }

/-- The user rows satisfying the join's ON clause for one entity row. -/
def matchingUsers (users : List UserRow) (e : VisRow) : List UserRow :=
  users.filter (fun u => u.id == e.user_id)

/-- The tuples of joined user rows produced by `n` successive inner joins of
the `User` table on the same ON clause. -/
def joinTuples (users : List UserRow) (e : VisRow) : Nat → List (List UserRow)
  | 0 => [[]]
  | n + 1 =>
    (matchingUsers users e).flatMap (fun u => (joinTuples users e n).map (fun t => u :: t))

/-- The `User` row a where-clause on `User` refers to in a joined tuple. -/
def userRef (t : List UserRow) : Option UserRow :=
  t.head?

/-- Truth of all where-clauses of a statement at one joined row.  A clause
added `n ≥ 1` times is `n` identical conjuncts, equivalent to one, so only
presence (`count ≠ 0`) matters. -/
def rowPasses (s : VisSelect) (e : VisRow) (t : List UserRow) : Bool :=
  (s.whereAdminFalse == 0 ||
    (match userRef t with
     | some u => !u.is_admin
     | none => false)) &&
  (s.whereVisible == 0 || e.is_visible) &&
  s.extraWhere.all (fun p => p e)

/-- Result set of a visibility select statement over concrete entity and user
tables, projected back to the entity rows (`results.scalars()`). -/
def runVisSelect (s : VisSelect) (entities : List VisRow) (users : List UserRow) :
    List VisRow :=
  entities.flatMap (fun e =>
    (joinTuples users e s.joinUserCount).filterMap (fun t =>
      if rowPasses s e t then some e else none))

/-! ## Theorems -/

/-- C1 counterexample: the whitespace-only query trims to length `0 ≤ 2`, yet
`build_search_condition` returns the unsatisfiable null-conjunction — not a
substring-containment `ILIKE` condition as the claim states for every query
of trimmed length at most 2. -/
theorem build_search_condition_empty_not_ilike :
    (pyStrip " ").length ≤ SHORT_QUERY_THRESHOLD ∧
      build_search_condition " " true = Cond.condAnd Cond.isNull Cond.isNotNull ∧
      (build_search_condition " " true).isIlikeOnly = false :=
  ⟨by decide, by decide, by decide⟩

/-- C1 (amended): for every query that is nonempty after trimming and has
trimmed length at most 2, `build_search_condition` returns the bare
case-insensitive substring-containment `ILIKE` condition and `build_order_by`
returns the ascending column; for trimmed length at least 3 with
`use_trigram_similarity = true`, the condition is the disjunction of that
`ILIKE` and a trigram-similarity-exceeds-0.1 test, and the order is
similarity descending. -/
theorem short_long_query_boundary (query : String) (b : Bool) :
    ((pyStrip query) ≠ "" → (pyStrip query).length ≤ SHORT_QUERY_THRESHOLD →
      build_search_condition query b = Cond.ilike ("%" ++ (pyStrip query) ++ "%") ∧
        build_order_by query = OrderKey.colAsc) ∧
    (3 ≤ (pyStrip query).length →
      build_search_condition query true =
          Cond.condOr (Cond.ilike ("%" ++ (pyStrip query) ++ "%"))
            (Cond.similarityGt (pyStrip query) SIMILARITY_THRESHOLD) ∧
        build_order_by query = OrderKey.similarityDesc (pyStrip query)) := by
  constructor
  · intro h0 h2
    constructor
    · simp [build_search_condition, h0, h2]
    · simp [build_order_by, h2]
  · intro h3
    have h0 : (pyStrip query) ≠ "" := by
      intro h
      rw [h] at h3
      rw [String.length_empty] at h3
      omega
    have h2 : ¬ (pyStrip query).length ≤ SHORT_QUERY_THRESHOLD := by
      unfold SHORT_QUERY_THRESHOLD
      omega
    constructor
    · simp [build_search_condition, h0, h2]
    · simp [build_order_by, h2]

/-- Witness for C1 at the concrete queries used by the spec's boundary test:
length 2 and length 3. -/
theorem short_long_query_boundary_witness :
    (build_search_condition "ab" false = Cond.ilike ("%" ++ (pyStrip "ab") ++ "%") ∧
      build_order_by "ab" = OrderKey.colAsc) ∧
    (build_search_condition "abc" true =
        Cond.condOr (Cond.ilike ("%" ++ (pyStrip "abc") ++ "%"))
          (Cond.similarityGt ((pyStrip "abc")) SIMILARITY_THRESHOLD) ∧
      build_order_by "abc" = OrderKey.similarityDesc ((pyStrip "abc"))) :=
  ⟨(short_long_query_boundary "ab" false).1 (by decide) (by decide),
   (short_long_query_boundary "abc" true).2 (by decide)⟩

/-- C2: a query that trims to empty builds an unsatisfiable condition: at any
column value of any row (under any similarity function) it evaluates to
false, so filtering any table with it keeps zero rows. -/
theorem empty_query_matches_no_rows (query : String) (h : (pyStrip query) = "")
    (use_trigram : Bool) (sim : String → String → ℚ) (rows : List (Option String)) :
    rows.filter (fun v => evalCond sim v (build_search_condition query use_trigram)) = [] := by
  have hc : build_search_condition query use_trigram
      = Cond.condAnd Cond.isNull Cond.isNotNull := by
    simp [build_search_condition, h]
  rw [hc]
  induction rows with
  | nil => rfl
  | cons v rest ih =>
    have hv : evalCond sim v (Cond.condAnd Cond.isNull Cond.isNotNull) = false := by
      cases v <;> simp [evalCond]
    simp [List.filter, hv, ih]

/-- Witness for C2: a whitespace-only query matches none of three rows. -/
theorem empty_query_matches_no_rows_witness :
    List.filter
        (fun v => evalCond (fun _ _ => 1) v (build_search_condition "  " true))
        [some "alice", some "", none] = [] :=
  empty_query_matches_no_rows "  " (by decide) true (fun _ _ => 1)
    [some "alice", some "", none]

/-- Every member of a list of strings occurs contiguously in the comma-join
of that list. -/
theorem mem_infix_joinComma (f : String) (l : List String) (h : f ∈ l) :
    f.data <:+: (joinComma l).data := by
  induction l with
  | nil => simp at h
  | cons g rest ih =>
    cases rest with
    | nil =>
      have hf : f = g := by simpa using h
      subst hf
      exact List.infix_refl _
    | cons g2 rest2 =>
      rcases List.mem_cons.mp h with h1 | h2
      · subst h1
        refine ⟨[], (", ").data ++ (joinComma (g2 :: rest2)).data, ?_⟩
        simp [joinComma, String.data_append]
      · obtain ⟨s, t, hst⟩ := ih h2
        refine ⟨(g ++ ", ").data ++ s, t, ?_⟩
        simp only [joinComma, String.data_append]
        simp [← hst, String.data_append]

/-- C9: `select_field` succeeds exactly when the model declares the composed
field name prefix-underscore-locale; on success it returns that field's
column with no side effects, and otherwise it raises — never catching
internally — an error whose message enumerates the model's available fields:
every declared field name occurs in the message. -/
theorem select_field_spec (model : PyModel) (p : String) (locale : LocaleCode) :
    ((select_field model p locale).isOk = true ↔
        hasField model (p ++ "_" ++ locale.code) = true) ∧
    (hasField model (p ++ "_" ++ locale.code) = true →
      select_field model p locale = Except.ok (p ++ "_" ++ locale.code)) ∧
    (∀ msg, select_field model p locale = Except.error msg →
      ∀ f ∈ model.fields, f.data <:+: msg.data) := by
  by_cases hmem : hasField model (p ++ "_" ++ locale.code) = true
  · refine ⟨by simp [select_field, hmem, Except.isOk, Except.toBool], ?_, ?_⟩
    · intro _
      simp [select_field, hmem]
    · intro msg hmsg
      rw [select_field.eq_def] at hmsg
      simp [hmem] at hmsg
  · refine ⟨by simp [select_field, hmem, Except.isOk, Except.toBool], ?_, ?_⟩
    · intro hc
      exact absurd hc hmem
    · intro msg hmsg f hf
      rw [select_field.eq_def] at hmsg
      simp [hmem] at hmsg
      have hj := mem_infix_joinComma f model.fields hf
      rw [← hmsg, String.data_append]
      exact hj.trans (List.suffix_append _ _).isInfix

/-- Witness for C9: a present composed field is returned, and for an absent
one every available field of the model occurs in the error message. -/
theorem select_field_spec_witness :
    (select_field ⟨"M", ["name_ko"]⟩ "name" LocaleCode.ko
        = Except.ok ("name" ++ "_" ++ LocaleCode.ko.code)) ∧
      ("name_ko").data <:+:
        ("Model " ++ "M" ++ " does not have field '" ++ ("name" ++ "_" ++ LocaleCode.en.code) ++
          "'. Available fields: " ++ joinComma ["name_ko"]).data :=
  ⟨(select_field_spec ⟨"M", ["name_ko"]⟩ "name" LocaleCode.ko).2.1 (by decide),
   (select_field_spec ⟨"M", ["name_ko"]⟩ "name" LocaleCode.en).2.2 _ rfl
     "name_ko" (by decide)⟩

/-- C10: when at least two rows match the `find_by` filters,
`scalar_one_or_none` raises `MultipleResultsFound` — a `SQLAlchemyError` —
which the handler catches and converts to `None`: `find_by` returns absent
rather than one of the matching entities. -/
theorem find_by_multiple_matches_none (m : PyModel) (table : List Row)
    (kwargs : List (String × Value))
    (h : 2 ≤ (applyEqFilters m kwargs table).length) :
    find_by_async none m table kwargs = none := by
  match hm : applyEqFilters m kwargs table with
  | [] => rw [hm] at h; simp at h
  | [r] => rw [hm] at h; simp at h
  | a :: b :: rest => simp [find_by_async, hm, scalar_one_or_none]

/-- Witness for C10: two rows share the filtered name, and `find_by` returns
`none`. -/
theorem find_by_multiple_matches_none_witness :
    2 ≤ (applyEqFilters ⟨"User", [idField, "name"]⟩ [("name", Value.vstr "A")]
          [[(idField, Value.vint 1), ("name", Value.vstr "A")],
           [(idField, Value.vint 2), ("name", Value.vstr "A")]]).length ∧
      find_by_async none ⟨"User", [idField, "name"]⟩
          [[(idField, Value.vint 1), ("name", Value.vstr "A")],
           [(idField, Value.vint 2), ("name", Value.vstr "A")]]
          [("name", Value.vstr "A")] = none :=
  ⟨by decide,
   find_by_multiple_matches_none ⟨"User", [idField, "name"]⟩
     [[(idField, Value.vint 1), ("name", Value.vstr "A")],
      [(idField, Value.vint 2), ("name", Value.vstr "A")]]
     [("name", Value.vstr "A")] (by decide)⟩

/-- Unfolding step of the `setattr` loop of `update_async`. -/
theorem applyKwargs_cons (m : PyModel) (r : Row) (kv : String × Value)
    (rest : List (String × Value)) :
    applyKwargs m r (kv :: rest)
      = applyKwargs m (if hasField m kv.1 then rowSet r kv.1 kv.2 else r) rest := rfl

/-- The `setattr` loop only sees the keyword arguments whose names the model
declares. -/
theorem applyKwargs_filter_declared (m : PyModel) (kwargs : List (String × Value))
    (r : Row) :
    applyKwargs m r kwargs
      = applyKwargs m r (kwargs.filter (fun kv => hasField m kv.1)) := by
  induction kwargs generalizing r with
  | nil => rfl
  | cons kv rest ih =>
    rw [applyKwargs_cons, List.filter_cons]
    by_cases h : hasField m kv.1 = true
    · rw [if_pos h, if_pos (by simpa using h), applyKwargs_cons, if_pos h]
      exact ih (rowSet r kv.1 kv.2)
    · rw [if_neg h, if_neg (by simpa using h)]
      exact ih r

/-- Unfolding step of the where-clause loop of `filter_by_async`. -/
theorem applyFilterKwargs_cons (m : PyModel) (kv : String × FilterVal)
    (rest : List (String × FilterVal)) (table : List Row) :
    applyFilterKwargs m (kv :: rest) table
      = applyFilterKwargs m rest
          (if hasField m kv.1 then
            (match kv.2 with
             | FilterVal.fvEq v => table.filter (fun r => sqlEqB (rowVal r kv.1) v)
             | FilterVal.fvIn vs => table.filter (fun r => sqlInB (rowVal r kv.1) vs))
           else table) := rfl

/-- The where-clause loop of `filter_by_async` only sees the keyword
arguments whose names the model declares. -/
theorem applyFilterKwargs_filter_declared (m : PyModel)
    (kwargs : List (String × FilterVal)) (table : List Row) :
    applyFilterKwargs m kwargs table
      = applyFilterKwargs m (kwargs.filter (fun kv => hasField m kv.1)) table := by
  induction kwargs generalizing table with
  | nil => rfl
  | cons kv rest ih =>
    rw [applyFilterKwargs_cons, List.filter_cons]
    by_cases h : hasField m kv.1 = true
    · rw [if_pos h, if_pos (by simpa using h), applyFilterKwargs_cons, if_pos h]
      exact ih _
    · rw [if_neg h, if_neg (by simpa using h)]
      exact ih table

/-- C4 counterexample: `filter_by` with an undeclared `order_by` name raises
`AttributeError` — `getattr(self.model, order_by)` has no `hasattr` guard and
`AttributeError` is not a `SQLAlchemyError` — instead of returning the
results as if no `order_by` were supplied. -/
theorem filter_by_unknown_order_by_raises :
    filter_by_async none ⟨"User", [idField, "name"]⟩
        [[(idField, Value.vint 1), ("name", Value.vstr "A")]]
        0 none (some "missing_field") false []
      = Except.error PyErr.attributeError ∧
    filter_by_async none ⟨"User", [idField, "name"]⟩
        [[(idField, Value.vint 1), ("name", Value.vstr "A")]]
        0 none none false []
      = Except.ok [[(idField, Value.vint 1), ("name", Value.vstr "A")]] := by
  constructor <;> rfl

/-- C4 (amended): `update` ignores keyword arguments whose names the model
does not declare, and `list` silently omits the ordering for an undeclared
`order_by` (plain or dash-prefixed), returning results as if no `order_by`
were supplied; `filter_by` likewise ignores undeclared filter fields, but an
undeclared `order_by` passed to `filter_by` raises `AttributeError` instead
of being ignored. -/
theorem unknown_field_handling (m : PyModel) (table : List Row) (now : Value)
    (id : Value) (gf cf fail : Option DbErr) (skip : Nat) (limit : Option Nat)
    (kwargs : List (String × Value)) (fkwargs : List (String × FilterVal))
    (f : String) (obd : Bool) :
    (update_async gf cf m now table id kwargs
        = update_async gf cf m now table id
            (kwargs.filter (fun kv => hasField m kv.1))) ∧
    (startsWithDash f = false → hasField m f = false →
      list_async fail m table skip limit (some f)
        = list_async fail m table skip limit none) ∧
    (startsWithDash f = true → hasField m (pyTail f) = false →
      list_async fail m table skip limit (some f)
        = list_async fail m table skip limit none) ∧
    (filter_by_async fail m table skip limit none obd fkwargs
        = filter_by_async fail m table skip limit none obd
            (fkwargs.filter (fun kv => hasField m kv.1))) ∧
    (f ≠ "" → hasField m f = false →
      filter_by_async fail m table skip limit (some f) obd fkwargs
        = Except.error PyErr.attributeError) := by
  refine ⟨?_, ?_, ?_, ?_, ?_⟩
  · simp only [update_async, ← applyKwargs_filter_declared]
  · intro h1 h2
    have ho : applyListOrder m table (some f) = applyListOrder m table none := by
      by_cases hf : f = ""
      · simp [applyListOrder, hf]
      · simp [applyListOrder, hf, h1, h2]
    simp [list_async, ho]
  · intro h1 h2
    have hf : f ≠ "" := by
      intro hc
      rw [hc] at h1
      simp [startsWithDash] at h1
    have ho : applyListOrder m table (some f) = applyListOrder m table none := by
      simp [applyListOrder, hf, h1, h2]
    simp [list_async, ho]
  · unfold filter_by_async
    rw [← applyFilterKwargs_filter_declared]
  · intro h1 h2
    simp [filter_by_async, h1, h2]

/-- Witness for C4 at concrete inputs: a one-row table, an unknown plain and
dash-prefixed `order_by` for `list`, and an unknown `order_by` for
`filter_by`. -/
theorem unknown_field_handling_witness :
    (list_async none ⟨"User", [idField, "name"]⟩ [[(idField, Value.vint 1)]]
        0 none (some "nope")
      = list_async none ⟨"User", [idField, "name"]⟩ [[(idField, Value.vint 1)]]
        0 none none) ∧
    (list_async none ⟨"User", [idField, "name"]⟩ [[(idField, Value.vint 1)]]
        0 none (some "-nope")
      = list_async none ⟨"User", [idField, "name"]⟩ [[(idField, Value.vint 1)]]
        0 none none) ∧
    (filter_by_async none ⟨"User", [idField, "name"]⟩ [[(idField, Value.vint 1)]]
        0 none (some "nope") false []
      = Except.error PyErr.attributeError) :=
  ⟨(unknown_field_handling ⟨"User", [idField, "name"]⟩ [[(idField, Value.vint 1)]]
      Value.vnone (Value.vint 1) none none none 0 none [] [] "nope" false).2.1
      (by decide) (by decide),
   (unknown_field_handling ⟨"User", [idField, "name"]⟩ [[(idField, Value.vint 1)]]
      Value.vnone (Value.vint 1) none none none 0 none [] [] "-nope" false).2.2.1
      (by decide) (by decide),
   (unknown_field_handling ⟨"User", [idField, "name"]⟩ [[(idField, Value.vint 1)]]
      Value.vnone (Value.vint 1) none none none 0 none [] [] "nope" false).2.2.2.2
      (by decide) (by decide)⟩

/-- C6: `bulk_create` is all-or-nothing: when the commit's integrity
constraint rejects any row of the batch the transaction rolls back — the
committed table is exactly as before the call — and an integrity error is
raised; on success every row of the batch is inserted. -/
theorem bulk_create_all_or_nothing (constraintOk : List Row → Bool) (m : PyModel)
    (table : List Row) (batch : List (List (String × Value))) :
    (constraintOk (table ++ batch.map (buildRow m)) = false →
      bulk_create_async constraintOk none m table batch
        = (Except.error DbErr.integrityError, table)) ∧
    (constraintOk (table ++ batch.map (buildRow m)) = true →
      bulk_create_async constraintOk none m table batch
        = (Except.ok (batch.map (buildRow m)), table ++ batch.map (buildRow m))) := by
  constructor <;> intro h <;> simp [bulk_create_async, h]

/-- Witness for C6: under uniqueness of `id`, a batch duplicating an existing
id rolls back to the original table with an integrity error, and a fresh id
commits the whole batch. -/
theorem bulk_create_all_or_nothing_witness :
    (bulk_create_async (fun t => decide ((t.map (fun r => rowVal r idField)).Nodup))
        none ⟨"User", [idField]⟩ [[(idField, Value.vint 1)]] [[(idField, Value.vint 1)]]
      = (Except.error DbErr.integrityError, [[(idField, Value.vint 1)]])) ∧
    (bulk_create_async (fun t => decide ((t.map (fun r => rowVal r idField)).Nodup))
        none ⟨"User", [idField]⟩ [[(idField, Value.vint 1)]] [[(idField, Value.vint 2)]]
      = (Except.ok ([[(idField, Value.vint 2)]].map (buildRow ⟨"User", [idField]⟩)),
          [[(idField, Value.vint 1)]]
            ++ [[(idField, Value.vint 2)]].map (buildRow ⟨"User", [idField]⟩))) :=
  ⟨(bulk_create_all_or_nothing _ ⟨"User", [idField]⟩ _ _).1 (by decide),
   (bulk_create_all_or_nothing _ ⟨"User", [idField]⟩ _ _).2 (by decide)⟩

/-- C8: with a positive limit `N`, `list` applies OFFSET before LIMIT, so the
page at skip 0 and the page at skip N concatenate to exactly the first `2N`
rows of the deterministically ordered dataset: no overlapping row and no
skipped row. -/
theorem list_pagination_partition (m : PyModel) (table : List Row)
    (order_by : Option String) (n : Nat) (hn : 0 < n) :
    list_async none m table 0 (some n) order_by
        ++ list_async none m table n (some n) order_by
      = (applyListOrder m table order_by).take (2 * n) := by
  have hne : n ≠ 0 := Nat.pos_iff_ne_zero.mp hn
  simp [list_async, applySkip, applyLimit, hne, two_mul, List.take_add]

/-- Witness for C8: three rows, limit 1, pages 0 and 1. -/
theorem list_pagination_partition_witness :
    list_async none ⟨"User", [idField]⟩
        [[(idField, Value.vint 1)], [(idField, Value.vint 2)], [(idField, Value.vint 3)]]
        0 (some 1) none
      ++ list_async none ⟨"User", [idField]⟩
        [[(idField, Value.vint 1)], [(idField, Value.vint 2)], [(idField, Value.vint 3)]]
        1 (some 1) none
      = (applyListOrder ⟨"User", [idField]⟩
          [[(idField, Value.vint 1)], [(idField, Value.vint 2)], [(idField, Value.vint 3)]]
          none).take (2 * 1) :=
  list_pagination_partition ⟨"User", [idField]⟩
    [[(idField, Value.vint 1)], [(idField, Value.vint 2)], [(idField, Value.vint 3)]]
    none 1 (by decide)

/-- Setting an attribute a row holds makes reading it yield the new value;
setting an attribute the row lacks writes nothing. -/
theorem rowGet_rowSet_self (r : Row) (k : String) (v : Value) :
    rowGet (rowSet r k v) k = if (rowGet r k).isSome then some v else none := by
  induction r with
  | nil => rfl
  | cons kv rest ih =>
    by_cases h : (kv.1 == k) = true
    · simp [rowGet, rowSet, h]
    · simp [rowGet, rowSet, h, ih]

/-- Setting one attribute leaves reads of any other attribute unchanged. -/
theorem rowGet_rowSet_ne (r : Row) (k f : String) (v : Value) (h : k ≠ f) :
    rowGet (rowSet r k v) f = rowGet r f := by
  induction r with
  | nil => rfl
  | cons kv rest ih =>
    by_cases hk : (kv.1 == k) = true
    · have hf : (kv.1 == f) = false := by
        have hkk : kv.1 = k := by simpa using hk
        simp [hkk, h]
      simp [rowGet, rowSet, hk, hf, ih]
    · by_cases hf : (kv.1 == f) = true
      · simp [rowGet, rowSet, hk, hf]
      · simp [rowGet, rowSet, hk, hf, ih]

/-- Setting an attribute does not change which attributes a row holds. -/
theorem rowGet_rowSet_isSome (r : Row) (k f : String) (v : Value) :
    (rowGet (rowSet r k v) f).isSome = (rowGet r f).isSome := by
  by_cases h : k = f
  · subst h
    rw [rowGet_rowSet_self]
    cases hr : rowGet r k <;> simp [hr]
  · rw [rowGet_rowSet_ne r k f v h]

/-- The `setattr` loop leaves attributes named by no keyword argument
unchanged. -/
theorem rowGet_applyKwargs_not_mem (m : PyModel) (kwargs : List (String × Value))
    (r : Row) (f : String) (h : ∀ kv ∈ kwargs, kv.1 ≠ f) :
    rowGet (applyKwargs m r kwargs) f = rowGet r f := by
  induction kwargs generalizing r with
  | nil => rfl
  | cons kv rest ih =>
    rw [applyKwargs_cons]
    have hkv : kv.1 ≠ f := h kv (List.mem_cons_self kv rest)
    have hrest : ∀ kv2 ∈ rest, kv2.1 ≠ f := fun kv2 hm => h kv2 (List.mem_cons_of_mem kv hm)
    by_cases hh : hasField m kv.1 = true
    · rw [if_pos hh, ih _ hrest, rowGet_rowSet_ne _ _ _ _ hkv]
    · rw [if_neg hh, ih _ hrest]

/-- The `setattr` loop does not change which attributes a row holds. -/
theorem rowGet_applyKwargs_isSome (m : PyModel) (kwargs : List (String × Value))
    (r : Row) (f : String) :
    (rowGet (applyKwargs m r kwargs) f).isSome = (rowGet r f).isSome := by
  induction kwargs generalizing r with
  | nil => rfl
  | cons kv rest ih =>
    rw [applyKwargs_cons]
    by_cases hh : hasField m kv.1 = true
    · rw [if_pos hh, ih _, rowGet_rowSet_isSome]
    · rw [if_neg hh, ih _]

/-- With distinct keyword-argument names, the `setattr` loop sets each
declared argument that names an attribute the row holds to its supplied
value. -/
theorem rowGet_applyKwargs_mem (m : PyModel) (kwargs : List (String × Value))
    (r : Row) (f : String) (v : Value)
    (hnd : (kwargs.map (fun kv => kv.1)).Nodup) (hmem : (f, v) ∈ kwargs)
    (hhf : hasField m f = true) (hsome : (rowGet r f).isSome = true) :
    rowGet (applyKwargs m r kwargs) f = some v := by
  induction kwargs generalizing r with
  | nil => simp at hmem
  | cons kv rest ih =>
    rw [List.map_cons, List.nodup_cons] at hnd
    rw [applyKwargs_cons]
    rcases List.mem_cons.mp hmem with h1 | h2
    · have hk1 : kv.1 = f := by rw [← h1]
      have hv1 : kv.2 = v := by rw [← h1]
      have hrest : ∀ kv2 ∈ rest, kv2.1 ≠ f := by
        intro kv2 hm hc
        have hmm : f ∈ rest.map (fun x => x.1) := by
          rw [← hc]
          exact List.mem_map_of_mem (fun x => x.1) hm
        rw [← hk1] at hmm
        exact hnd.1 hmm
      rw [hk1, hv1, if_pos hhf]
      rw [rowGet_applyKwargs_not_mem m rest _ f hrest, rowGet_rowSet_self]
      simp [hsome]
    · by_cases hh : hasField m kv.1 = true
      · rw [if_pos hh]
        exact ih _ hnd.2 h2 (by rw [rowGet_rowSet_isSome]; exact hsome)
      · rw [if_neg hh]
        exact ih _ hnd.2 h2 hsome

/-- Stamping the timestamp leaves every other attribute unchanged. -/
theorem rowGet_stampUpdatedAt_ne (m : PyModel) (now : Value) (r : Row) (f : String)
    (h : f ≠ updatedAtField) :
    rowGet (stampUpdatedAt m now r) f = rowGet r f := by
  unfold stampUpdatedAt
  by_cases hh : hasField m updatedAtField = true
  · rw [if_pos hh, rowGet_rowSet_ne _ _ _ _ (fun hc => h hc.symm)]
  · rw [if_neg hh]

/-- When the model declares `updated_at` and the row holds it, stamping
overwrites it with the current time. -/
theorem rowGet_stampUpdatedAt_self (m : PyModel) (now : Value) (r : Row)
    (hdecl : hasField m updatedAtField = true)
    (hsome : (rowGet r updatedAtField).isSome = true) :
    rowGet (stampUpdatedAt m now r) updatedAtField = some now := by
  unfold stampUpdatedAt
  rw [if_pos hdecl, rowGet_rowSet_self]
  simp [hsome]

/-- C5: `update` on an id matching no row returns absence and leaves the
table unchanged; on an id matching exactly one row it commits exactly the
replacement of that row by the entity with the declared supplied fields set,
every other field (but the stamped timestamp) unchanged, `updated_at` set to
the current time when the model declares it, and returns that refreshed
entity. -/
theorem update_async_semantics (m : PyModel) (now : Value) (table : List Row)
    (id : Value) (kwargs : List (String × Value)) :
    ((∀ r ∈ table, sqlEqB (rowVal r idField) id = false) →
      update_async none none m now table id kwargs = (Except.ok none, table)) ∧
    (∀ entity, table.filter (fun r => sqlEqB (rowVal r idField) id) = [entity] →
      update_async none none m now table id kwargs
          = (Except.ok (some (stampUpdatedAt m now (applyKwargs m entity kwargs))),
              table.map (fun r =>
                if sqlEqB (rowVal r idField) id then
                  stampUpdatedAt m now (applyKwargs m entity kwargs)
                else r)) ∧
        (∀ f, f ≠ updatedAtField → (∀ kv ∈ kwargs, kv.1 ≠ f) →
          rowGet (stampUpdatedAt m now (applyKwargs m entity kwargs)) f
            = rowGet entity f) ∧
        ((kwargs.map (fun kv => kv.1)).Nodup →
          ∀ f v, (f, v) ∈ kwargs → hasField m f = true → f ≠ updatedAtField →
            (rowGet entity f).isSome = true →
            rowGet (stampUpdatedAt m now (applyKwargs m entity kwargs)) f = some v) ∧
        (hasField m updatedAtField = true →
          (rowGet entity updatedAtField).isSome = true →
          rowGet (stampUpdatedAt m now (applyKwargs m entity kwargs)) updatedAtField
            = some now)) := by
  constructor
  · intro habs
    have hf : table.filter (fun r => sqlEqB (rowVal r idField) id) = [] :=
      List.filter_eq_nil_iff.mpr (by simpa using habs)
    simp [update_async, get_async, hf, scalar_one_or_none]
  · intro entity hfe
    have hg : get_async none table id = some entity := by
      simp [get_async, hfe, scalar_one_or_none]
    refine ⟨by simp [update_async, hg], ?_, ?_, ?_⟩
    · intro f hfu hnk
      rw [rowGet_stampUpdatedAt_ne m now _ f hfu,
        rowGet_applyKwargs_not_mem m kwargs entity f hnk]
    · intro hnd f v hmem hhf hfu hsome
      rw [rowGet_stampUpdatedAt_ne m now _ f hfu,
        rowGet_applyKwargs_mem m kwargs entity f v hnd hmem hhf hsome]
    · intro hdecl hsome
      exact rowGet_stampUpdatedAt_self m now _ hdecl
        (by rw [rowGet_applyKwargs_isSome]; exact hsome)

/-- Witness for C5: a concrete user row updated on `name` only — the id
mismatch returns absence with no state change; the match sets `name`, keeps
`age`, stamps `updated_at`. -/
theorem update_async_semantics_witness :
    (update_async none none ⟨"User", ["id", "name", "age", "updated_at"]⟩
        (Value.vint 99)
        [[("id", Value.vint 1), ("name", Value.vstr "A"), ("age", Value.vint 30),
          ("updated_at", Value.vint 0)]]
        (Value.vint 3) [("name", Value.vstr "B")]
      = (Except.ok none,
          [[("id", Value.vint 1), ("name", Value.vstr "A"), ("age", Value.vint 30),
            ("updated_at", Value.vint 0)]])) ∧
    (update_async none none ⟨"User", ["id", "name", "age", "updated_at"]⟩
        (Value.vint 99)
        [[("id", Value.vint 1), ("name", Value.vstr "A"), ("age", Value.vint 30),
          ("updated_at", Value.vint 0)]]
        (Value.vint 1) [("name", Value.vstr "B")]
      = (Except.ok (some (stampUpdatedAt ⟨"User", ["id", "name", "age", "updated_at"]⟩
            (Value.vint 99)
            (applyKwargs ⟨"User", ["id", "name", "age", "updated_at"]⟩
              [("id", Value.vint 1), ("name", Value.vstr "A"), ("age", Value.vint 30),
                ("updated_at", Value.vint 0)]
              [("name", Value.vstr "B")]))),
          [[("id", Value.vint 1), ("name", Value.vstr "A"), ("age", Value.vint 30),
            ("updated_at", Value.vint 0)]].map (fun r =>
            if sqlEqB (rowVal r "id") (Value.vint 1) then
              stampUpdatedAt ⟨"User", ["id", "name", "age", "updated_at"]⟩
                (Value.vint 99)
                (applyKwargs ⟨"User", ["id", "name", "age", "updated_at"]⟩
                  [("id", Value.vint 1), ("name", Value.vstr "A"), ("age", Value.vint 30),
                    ("updated_at", Value.vint 0)]
                  [("name", Value.vstr "B")])
            else r))) ∧
    (rowGet (stampUpdatedAt ⟨"User", ["id", "name", "age", "updated_at"]⟩
        (Value.vint 99)
        (applyKwargs ⟨"User", ["id", "name", "age", "updated_at"]⟩
          [("id", Value.vint 1), ("name", Value.vstr "A"), ("age", Value.vint 30),
            ("updated_at", Value.vint 0)]
          [("name", Value.vstr "B")])) "age"
      = rowGet [("id", Value.vint 1), ("name", Value.vstr "A"), ("age", Value.vint 30),
          ("updated_at", Value.vint 0)] "age") ∧
    (rowGet (stampUpdatedAt ⟨"User", ["id", "name", "age", "updated_at"]⟩
        (Value.vint 99)
        (applyKwargs ⟨"User", ["id", "name", "age", "updated_at"]⟩
          [("id", Value.vint 1), ("name", Value.vstr "A"), ("age", Value.vint 30),
            ("updated_at", Value.vint 0)]
          [("name", Value.vstr "B")])) "name"
      = some (Value.vstr "B")) ∧
    (rowGet (stampUpdatedAt ⟨"User", ["id", "name", "age", "updated_at"]⟩
        (Value.vint 99)
        (applyKwargs ⟨"User", ["id", "name", "age", "updated_at"]⟩
          [("id", Value.vint 1), ("name", Value.vstr "A"), ("age", Value.vint 30),
            ("updated_at", Value.vint 0)]
          [("name", Value.vstr "B")])) "updated_at"
      = some (Value.vint 99)) :=
  ⟨(update_async_semantics ⟨"User", ["id", "name", "age", "updated_at"]⟩
      (Value.vint 99)
      [[("id", Value.vint 1), ("name", Value.vstr "A"), ("age", Value.vint 30),
        ("updated_at", Value.vint 0)]]
      (Value.vint 3) [("name", Value.vstr "B")]).1 (by decide),
   ((update_async_semantics ⟨"User", ["id", "name", "age", "updated_at"]⟩
      (Value.vint 99)
      [[("id", Value.vint 1), ("name", Value.vstr "A"), ("age", Value.vint 30),
        ("updated_at", Value.vint 0)]]
      (Value.vint 1) [("name", Value.vstr "B")]).2
      [("id", Value.vint 1), ("name", Value.vstr "A"), ("age", Value.vint 30),
        ("updated_at", Value.vint 0)] (by decide)).1,
   ((update_async_semantics ⟨"User", ["id", "name", "age", "updated_at"]⟩
      (Value.vint 99)
      [[("id", Value.vint 1), ("name", Value.vstr "A"), ("age", Value.vint 30),
        ("updated_at", Value.vint 0)]]
      (Value.vint 1) [("name", Value.vstr "B")]).2
      [("id", Value.vint 1), ("name", Value.vstr "A"), ("age", Value.vint 30),
        ("updated_at", Value.vint 0)] (by decide)).2.1 "age" (by decide) (by decide),
   ((update_async_semantics ⟨"User", ["id", "name", "age", "updated_at"]⟩
      (Value.vint 99)
      [[("id", Value.vint 1), ("name", Value.vstr "A"), ("age", Value.vint 30),
        ("updated_at", Value.vint 0)]]
      (Value.vint 1) [("name", Value.vstr "B")]).2
      [("id", Value.vint 1), ("name", Value.vstr "A"), ("age", Value.vint 30),
        ("updated_at", Value.vint 0)] (by decide)).2.2.1 (by decide) "name"
      (Value.vstr "B") (by decide) (by decide) (by decide) (by decide),
   ((update_async_semantics ⟨"User", ["id", "name", "age", "updated_at"]⟩
      (Value.vint 99)
      [[("id", Value.vint 1), ("name", Value.vstr "A"), ("age", Value.vint 30),
        ("updated_at", Value.vint 0)]]
      (Value.vint 1) [("name", Value.vstr "B")]).2
      [("id", Value.vint 1), ("name", Value.vstr "A"), ("age", Value.vint 30),
        ("updated_at", Value.vint 0)] (by decide)).2.2.2 (by decide) (by decide)⟩

/-- C7 counterexample: a database-layer failure during the id-lookup phase of
`update` (a write operation) is caught inside `get_async` and surfaces as
absence: `update` returns `None` with no error raised — the failure is
swallowed, contradicting the claim that every database-layer failure during
a write is re-raised after rollback.  `delete` likewise returns `false`. -/
theorem update_lookup_failure_swallowed :
    (update_async (some DbErr.operationalError) none ⟨"User", ["id"]⟩ (Value.vint 9)
        [[("id", Value.vint 1)]] (Value.vint 1) []
      = (Except.ok none, [[("id", Value.vint 1)]])) ∧
    (delete_async (some DbErr.operationalError) none [[("id", Value.vint 1)]]
        (Value.vint 1)
      = (Except.ok false, [[("id", Value.vint 1)]])) := by
  constructor <;> rfl

/-- C7 (amended): on a database-layer failure, single-entity lookups (`get`,
`find_by`) return absent and `list`/`count`/`exists` return empty, zero and
false rather than raising; a failure at the flush/commit phase of a write
(`create`, `update`, `delete`, `bulk_create`, `bulk_update`) rolls the
transaction back — the committed table is unchanged — and re-raises the
error; but a failure during the preliminary id-lookup of `update` or
`delete` is swallowed by the lookup and surfaces as absence / `false`. -/
theorem db_failure_propagation (e : DbErr) (m : PyModel) (table : List Row)
    (id now : Value) (kwargs filters : List (String × Value))
    (skip : Nat) (limit : Option Nat)
    (order_by : Option String) (cf : Option DbErr)
    (constraintOk : List Row → Bool) (batch : List (List (String × Value)))
    (updates : List Row) :
    (get_async (some e) table id = none) ∧
    (find_by_async (some e) m table filters = none) ∧
    (list_async (some e) m table skip limit order_by = []) ∧
    (count_async (some e) m table filters = 0) ∧
    (exists_async (some e) m table filters = false) ∧
    (create_async (some e) m table kwargs = (Except.error e, table)) ∧
    (get_async none table id ≠ none →
      update_async none (some e) m now table id kwargs = (Except.error e, table)) ∧
    (get_async none table id ≠ none →
      delete_async none (some e) table id = (Except.error e, table)) ∧
    (bulk_create_async constraintOk (some e) m table batch
      = (Except.error e, table)) ∧
    (updates ≠ [] →
      bulk_update_async (some e) m now table updates = (Except.error e, table)) ∧
    (update_async (some e) cf m now table id kwargs = (Except.ok none, table)) ∧
    (delete_async (some e) cf table id = (Except.ok false, table)) := by
  refine ⟨rfl, rfl, rfl, rfl, rfl, rfl, ?_, ?_, rfl, ?_, rfl, rfl⟩
  · intro hg
    cases hge : get_async none table id with
    | none => exact absurd hge hg
    | some entity => simp [update_async, hge]
  · intro hg
    cases hge : get_async none table id with
    | none => exact absurd hge hg
    | some entity => simp [delete_async, hge]
  · intro hu
    cases updates with
    | nil => exact absurd rfl hu
    | cons u us => rfl

/-- Witness for C7: commit failures of `update`, `delete` and `bulk_update`
at a concrete one-row table re-raise the error and leave the table as it
was. -/
theorem db_failure_propagation_witness :
    (update_async none (some DbErr.operationalError) ⟨"User", ["id"]⟩ (Value.vint 9)
        [[("id", Value.vint 1)]] (Value.vint 1) []
      = (Except.error DbErr.operationalError, [[("id", Value.vint 1)]])) ∧
    (delete_async none (some DbErr.operationalError) [[("id", Value.vint 1)]]
        (Value.vint 1)
      = (Except.error DbErr.operationalError, [[("id", Value.vint 1)]])) ∧
    (bulk_update_async (some DbErr.operationalError) ⟨"User", ["id"]⟩ (Value.vint 9)
        [[("id", Value.vint 1)]] [[("id", Value.vint 1)]]
      = (Except.error DbErr.operationalError, [[("id", Value.vint 1)]])) :=
  ⟨(db_failure_propagation DbErr.operationalError ⟨"User", ["id"]⟩
      [[("id", Value.vint 1)]] (Value.vint 1) (Value.vint 9) [] [] 0 none none
      none (fun _ => true) [] [[("id", Value.vint 1)]]).2.2.2.2.2.2.1 (by decide),
   (db_failure_propagation DbErr.operationalError ⟨"User", ["id"]⟩
      [[("id", Value.vint 1)]] (Value.vint 1) (Value.vint 9) [] [] 0 none none
      none (fun _ => true) [] [[("id", Value.vint 1)]]).2.2.2.2.2.2.2.1 (by decide),
   (db_failure_propagation DbErr.operationalError ⟨"User", ["id"]⟩
      [[("id", Value.vint 1)]] (Value.vint 1) (Value.vint 9) [] [] 0 none none
      none (fun _ => true) [] [[("id", Value.vint 1)]]).2.2.2.2.2.2.2.2.2.1
      (by decide)⟩

/-- Under a primary-key-unique user table, the join's ON clause matches each
entity row to no user row or to exactly one. -/
theorem matchingUsers_eq_nil_or_singleton (users : List UserRow) (e : VisRow)
    (hu : (users.map (fun u => u.id)).Nodup) :
    matchingUsers users e = [] ∨ ∃ u, matchingUsers users e = [u] := by
  induction users with
  | nil => exact Or.inl rfl
  | cons u us ih =>
    rw [List.map_cons, List.nodup_cons] at hu
    by_cases hm : (u.id == e.user_id) = true
    · right
      refine ⟨u, ?_⟩
      have hus : matchingUsers us e = [] := by
        refine List.filter_eq_nil_iff.mpr ?_
        intro v hv hc
        have hveq : v.id = e.user_id := by simpa using hc
        have hueq : u.id = e.user_id := by simpa using hm
        exact hu.1 (by
          rw [hueq, ← hveq]
          exact List.mem_map_of_mem (fun x => x.id) hv)
      simp [matchingUsers, List.filter_cons, hm] at *
      exact hus
    · have : matchingUsers (u :: us) e = matchingUsers us e := by
        simp [matchingUsers, List.filter_cons, hm]
      rw [this]
      exact ih hu.2

/-- With no matching user row, any positive number of inner joins empties the
result. -/
theorem joinTuples_of_matching_nil (users : List UserRow) (e : VisRow)
    (h : matchingUsers users e = []) (n : Nat) :
    joinTuples users e (n + 1) = [] := by
  simp [joinTuples, h]

/-- With exactly one matching user row, `n` inner joins produce exactly one
tuple: that row repeated `n` times. -/
theorem joinTuples_of_matching_singleton (users : List UserRow) (e : VisRow)
    (u : UserRow) (h : matchingUsers users e = [u]) :
    ∀ n, joinTuples users e n = [List.replicate n u]
  | 0 => by simp [joinTuples]
  | n + 1 => by
    rw [joinTuples, h, joinTuples_of_matching_singleton users e u h n]
    simp [List.replicate_succ]

/-- C3: the visibility filter is idempotent: under the primary-key
uniqueness of `User.id`, applying `add_visibility_filters` twice to any
select statement yields a query whose result set over any concrete entity
and user tables equals — row for row — that of applying it once: the
repeated join duplicates no row. -/
theorem add_visibility_filters_idempotent (s : VisSelect) (entities : List VisRow)
    (users : List UserRow) (hu : (users.map (fun u => u.id)).Nodup) :
    runVisSelect (add_visibility_filters (add_visibility_filters s)) entities users
      = runVisSelect (add_visibility_filters s) entities users := by
  unfold runVisSelect
  induction entities with
  | nil => rfl
  | cons e es ih =>
    rw [List.flatMap_cons, List.flatMap_cons, ih]
    congr 1
    rcases matchingUsers_eq_nil_or_singleton users e hu with h | ⟨u, h⟩
    · have h2 : (add_visibility_filters (add_visibility_filters s)).joinUserCount
          = s.joinUserCount + 1 + 1 := rfl
      have h1 : (add_visibility_filters s).joinUserCount = s.joinUserCount + 1 := rfl
      rw [h2, h1, joinTuples_of_matching_nil users e h,
        joinTuples_of_matching_nil users e h]
      rfl
    · have h2 : (add_visibility_filters (add_visibility_filters s)).joinUserCount
          = s.joinUserCount + 1 + 1 := rfl
      have h1 : (add_visibility_filters s).joinUserCount = s.joinUserCount + 1 := rfl
      rw [h2, h1, joinTuples_of_matching_singleton users e u h,
        joinTuples_of_matching_singleton users e u h]
      have hp : rowPasses (add_visibility_filters (add_visibility_filters s)) e
            (List.replicate (s.joinUserCount + 1 + 1) u)
          = rowPasses (add_visibility_filters s) e
            (List.replicate (s.joinUserCount + 1) u) := by
        simp [rowPasses, add_visibility_filters, userRef, List.replicate_succ]
      simp [List.filterMap, hp]

/-- Witness for C3: two entities (one visible, one hidden) owned by two
distinct users; the double filter returns the same rows as the single one. -/
theorem add_visibility_filters_idempotent_witness :
    runVisSelect (add_visibility_filters (add_visibility_filters selectEntity))
        [⟨1, 10, true⟩, ⟨2, 11, false⟩]
        [⟨10, false⟩, ⟨11, false⟩]
      = runVisSelect (add_visibility_filters selectEntity)
          [⟨1, 10, true⟩, ⟨2, 11, false⟩]
          [⟨10, false⟩, ⟨11, false⟩] :=
  add_visibility_filters_idempotent selectEntity
    [⟨1, 10, true⟩, ⟨2, 11, false⟩]
    [⟨10, false⟩, ⟨11, false⟩] (by decide)
